import Mathlib

/-!
Logging, error-guard and progress macros of `cuda_memtest.h`.

A shallow embedding of the macros of `src/cuda_memtest.h`:
`PRINTF`, `FPRINTF`, `DEBUG_PRINTF`, `CUERR`, `SYNC_CUERR_KERNEL` and
`SHOW_PROGRESS`.

The macros are effectful, so every macro is a function on a `World` that
records the observable events (lock, unlock, writes, flushes, device
synchronisation) in the order in which the expanded C code performs them.
A macro that may call `exit` returns an `Outcome`, which carries the exit
status when the process was terminated.
-/

namespace Memtest

/-! ## Machine integers and the `printf` subset used by the header -/

/-- Number of values of a C `unsigned int` (32 bits). -/
def UINT_SIZE : Nat := 2 ^ 32

/-- Constant `#define GRIDSIZE 128` (line 92). -/
def GRIDSIZE : Nat := 128

/-- The value a 32-bit `unsigned int` has when it is read as an `int`
(two's complement), which is what `%d` does with it. -/
def asInt32 (n : Nat) : Int :=
  if n % UINT_SIZE < 2 ^ 31 then ((n % UINT_SIZE : Nat) : Int)
  else ((n % UINT_SIZE : Nat) : Int) - (UINT_SIZE : Int)

/-- Decimal text of a signed integer, as `%d` prints it. -/
def fmt_d (v : Int) : String :=
  if v < 0 then "-" ++ Nat.repr v.natAbs else Nat.repr v.natAbs

/-- A variadic argument handed to `printf`. -/
inductive Arg where
  | str (s : String)
  | int (v : Int)
  | uint (v : Nat)
deriving DecidableEq, Repr

/-- Text produced by the conversion `%d` for an argument. An
`unsigned int` argument is read back as an `int`. A string argument is a
type mismatch (undefined in C) and yields no text here. -/
def Arg.asD : Arg → String
  | Arg.int v => fmt_d v
  | Arg.uint v => fmt_d (asInt32 v)
  | Arg.str _ => ""

/-- Text produced by the conversion `%s` for an argument. A numeric
argument is a type mismatch (undefined in C) and yields no text here. -/
def Arg.asS : Arg → String
  | Arg.str s => s
  | _ => ""

/-- The subset of `printf` formatting the header relies on: `%s`, `%d`
and `%%`; every other character is copied. Arguments are consumed left to
right, one per conversion. -/
def cformat : List Char → List Arg → List Char
  | [], _ => []
  | [c], _ => [c]
  | c :: d :: rest, args =>
    if c = '%' then
      if d = 's' then
        match args with
        | a :: args' => a.asS.data ++ cformat rest args'
        | [] => cformat rest []
      else if d = 'd' then
        match args with
        | a :: args' => a.asD.data ++ cformat rest args'
        | [] => cformat rest []
      else if d = '%' then '%' :: cformat rest args
      else c :: cformat (d :: rest) args
    else c :: cformat (d :: rest) args

/-- The text `printf(fmt, args...)` writes. -/
def sprintf (fmt : String) (args : List Arg) : String :=
  String.mk (cformat fmt.data args)

/-! ## Progress arithmetic (`SHOW_PROGRESS`, line 148) -/

/-- Line 148:
`unsigned int num_checked_blocks = i+GRIDSIZE <= tot_num_blocks? i+GRIDSIZE: tot_num_blocks;`
with `i` and `tot_num_blocks` of type `unsigned int`: the sum wraps
modulo `2^32`. -/
def num_checked_blocks (i tot_num_blocks : Nat) : Nat :=
  if (i + GRIDSIZE) % UINT_SIZE ≤ tot_num_blocks then (i + GRIDSIZE) % UINT_SIZE
  else tot_num_blocks

/-! ## Observable events, session state and backend -/

/-- An observable effect of the expanded macros, in program order. -/
inductive Event where
  | lock                 -- pthread_mutex_lock(&mutex)
  | unlock               -- pthread_mutex_unlock(&mutex)
  | out (s : String)     -- printf(...) : text written to stdout
  | err (s : String)     -- fprintf(stderr, ...) : text written to stderr
  | flushOut             -- fflush(stdout)
  | flushErr             -- fflush(stderr)
  | sync                 -- <api>DeviceSynchronize()
deriving DecidableEq, Repr

/-- The state the macros thread through: the events performed so far and
the number of `time_string()` calls made so far. -/
structure World where
  trace : List Event
  clock : Nat
deriving DecidableEq, Repr

/-- The `extern` globals read by the macros (lines 78-87). `time_string`
gives the text returned by the n-th call of `time_string()`; `gpu_temp`
gives the content of the volatile array `gpu_temp[]` at a clock value. -/
structure Session where
  hostname : String
  gpu_idx : Nat
  verbose : Nat
  interactive : Nat
  monitor_temp : Nat
  time_string : Nat → String
  gpu_temp : Nat → Nat → Int

/-- The vendor runtime symbols the macros name through `MEMTEST_API_PREFIX`
(`cudaSuccess`/`hipSuccess`, `GetErrorString`, and the result of
`DeviceSynchronize()` in a given state). They come from the vendor headers
and are parameters here. -/
structure Backend where
  Success : Int
  GetErrorString : Int → String
  DeviceSynchronize : World → Int

/-- A C expression with side effects that yields an error code. -/
abbrev Expr := World → Int × World

/-- Result of a macro that may call `exit`: either control continues after
the macro, or the process has been terminated with a status. -/
inductive Outcome where
  | continues (w : World)
  | exited (w : World) (status : Int)
deriving DecidableEq, Repr

/-- The world an outcome ends in. -/
def Outcome.world : Outcome → World
  | Outcome.continues w => w
  | Outcome.exited w _ => w

/-- The status handed to `exit`, when it was called. -/
def Outcome.status : Outcome → Option Int
  | Outcome.continues _ => none
  | Outcome.exited _ s => some s

/-- Whether `exit` was called. -/
def Outcome.terminated : Outcome → Bool
  | Outcome.continues _ => false
  | Outcome.exited _ _ => true

/-- Append one event to the trace. -/
def World.emit (w : World) (e : Event) : World :=
  { w with trace := w.trace ++ [e] }

/-- One call of `time_string()`. -/
def call_time_string (S : Session) (w : World) : String × World :=
  (S.time_string w.clock, { w with clock := w.clock + 1 })

/-- The expression `MEMTEST_API_PREFIX(DeviceSynchronize)()`. -/
def deviceSynchronize (B : Backend) : Expr :=
  fun w => (B.DeviceSynchronize w, w.emit Event.sync)

/-! ## The logging macros -/

/-- Macro `#define PRINTF(fmt,...)` (lines 94-106). -/
def PRINTF (S : Session) (fmt : String) (args : List Arg) (w : World) : World :=
  let w' :=
    if S.monitor_temp ≠ 0 then
      let w1 := w.emit Event.lock
      let temp := S.gpu_temp w1.clock S.gpu_idx
      let (t, w2) := call_time_string S w1
      let w3 := w2.emit (Event.out (sprintf ("[%s][%s][%d][%d C]:" ++ fmt)
        (Arg.str t :: Arg.str S.hostname :: Arg.uint S.gpu_idx :: Arg.int temp :: args)))
      w3.emit Event.unlock
    else
      let w1 := w.emit Event.lock
      let (t, w2) := call_time_string S w1
      let w3 := w2.emit (Event.out (sprintf ("[%s][%s][%d]:" ++ fmt)
        (Arg.str t :: Arg.str S.hostname :: Arg.uint S.gpu_idx :: args)))
      w3.emit Event.unlock
  w'.emit Event.flushOut

/-- Macro `#define FPRINTF(fmt,...)` (lines 109-117). -/
def FPRINTF (S : Session) (fmt : String) (args : List Arg) (w : World) : World :=
  let w' :=
    if S.monitor_temp ≠ 0 then
      let temp := S.gpu_temp w.clock S.gpu_idx
      let (t, w1) := call_time_string S w
      w1.emit (Event.err (sprintf ("[%s][%s][%d][%d C]:" ++ fmt)
        (Arg.str t :: Arg.str S.hostname :: Arg.uint S.gpu_idx :: Arg.int temp :: args)))
    else
      let (t, w1) := call_time_string S w
      w1.emit (Event.err (sprintf ("[%s][%s][%d]:" ++ fmt)
        (Arg.str t :: Arg.str S.hostname :: Arg.uint S.gpu_idx :: args)))
  w'.emit Event.flushErr

/-- Macro `#define DEBUG_PRINTF(fmt,...)` (lines 121-125). -/
def DEBUG_PRINTF (S : Session) (fmt : String) (args : List Arg) (w : World) : World :=
  if S.verbose ≠ 0 then PRINTF S fmt args w else w

/-! ## The error guards -/

/-- The format both guards pass to `FPRINTF` and `PRINTF`. -/
def cuerr_fmt : String := "ERROR: CUDA error: %s, line %d, file %s\n"

/-- The arguments both guards pass after the format:
`GetErrorString(cuda_err), __LINE__, __FILE__`. -/
def cuerr_args (B : Backend) (file : String) (line : Nat) (cuda_err : Int) : List Arg :=
  [Arg.str (B.GetErrorString cuda_err), Arg.int (line : Int), Arg.str file]

/-- Macro `#define CUERR(...)` (lines 132-136), expanded at `file`:`line` around
the expression `e`. -/
def CUERR (B : Backend) (S : Session) (file : String) (line : Nat) (e : Expr)
    (w : World) : Outcome :=
  let (cuda_err, w1) := e w
  if cuda_err ≠ B.Success then
    let w2 := FPRINTF S cuerr_fmt (cuerr_args B file line cuda_err) w1
    let w3 := PRINTF S cuerr_fmt (cuerr_args B file line cuda_err) w2
    Outcome.exited w3 cuda_err
  else Outcome.continues w1

/-- Macro `#define SYNC_CUERR_KERNEL(...)` (lines 138-144), expanded at
`file`:`line` around the dispatch expression `k`; the value of `k` is
discarded by the statement `__VA_ARGS__;`. -/
def SYNC_CUERR_KERNEL (B : Backend) (S : Session) (file : String) (line : Nat) (k : Expr)
    (w : World) : Outcome :=
  let (_, w0) := k w
  let (cuda_err, w1) := deviceSynchronize B w0
  if cuda_err ≠ B.Success then
    let w2 := FPRINTF S cuerr_fmt (cuerr_args B file line cuda_err) w1
    let w3 := PRINTF S cuerr_fmt (cuerr_args B file line cuda_err) w2
    Outcome.exited w3 cuda_err
  else Outcome.continues w1

/-! ## The progress reporter -/

/-- The format of the interactive progress line (line 151). -/
def progress_fmt_interactive : String := "\r%s[%d]:%s: %d out of %d blocks finished"

/-- The format of the logged progress line (line 153). -/
def progress_fmt_log : String := "%s: %d out of %d blocks finished\n"

/-- Macro `#define SHOW_PROGRESS(msg, i, tot_num_blocks)` (lines 146-156),
expanded at `file`:`line`, with `i` and `tot_num_blocks` of type
`unsigned int`. -/
def SHOW_PROGRESS (B : Backend) (S : Session) (file : String) (line : Nat)
    (msg : String) (i tot_num_blocks : Nat) (w : World) : Outcome :=
  match CUERR B S file line (deviceSynchronize B) w with
  | Outcome.exited w' st => Outcome.exited w' st
  | Outcome.continues w1 =>
    let n := num_checked_blocks i tot_num_blocks
    let w2 :=
      if S.verbose ≥ 2 then
        if S.interactive ≠ 0 then
          w1.emit (Event.out (sprintf progress_fmt_interactive
            [Arg.str S.hostname, Arg.uint S.gpu_idx, Arg.str msg, Arg.uint n,
             Arg.uint tot_num_blocks]))
        else
          PRINTF S progress_fmt_log [Arg.str msg, Arg.uint n, Arg.uint tot_num_blocks] w1
      else w1
    Outcome.continues (w2.emit Event.flushOut)

/-! ## Concrete sessions used to evaluate the macros -/

/-- A session without temperature monitoring, quiet, on device 0. -/
def plainSession : Session :=
  { hostname := "node1", gpu_idx := 0, verbose := 0, interactive := 0, monitor_temp := 0,
    time_string := fun n => "T" ++ Nat.repr n, gpu_temp := fun _ _ => 40 }

/-- A session with temperature monitoring on device 1, verbose level 2,
interactive. -/
def tempSession : Session :=
  { hostname := "node1", gpu_idx := 1, verbose := 2, interactive := 1, monitor_temp := 1,
    time_string := fun n => "T" ++ Nat.repr n, gpu_temp := fun _ g => 40 + (g : Int) }

/-- A verbose, non-interactive session without temperature monitoring. -/
def logSession : Session :=
  { hostname := "node1", gpu_idx := 0, verbose := 2, interactive := 0, monitor_temp := 0,
    time_string := fun n => "T" ++ Nat.repr n, gpu_temp := fun _ _ => 40 }

/-- A backend whose success value is 0 and whose synchronisation succeeds. -/
def okBackend : Backend :=
  { Success := 0, GetErrorString := fun c => "error " ++ fmt_d c,
    DeviceSynchronize := fun _ => 0 }

/-- A backend whose synchronisation fails with code 700. -/
def failBackend : Backend :=
  { Success := 0, GetErrorString := fun c => "error " ++ fmt_d c,
    DeviceSynchronize := fun _ => 700 }

/-- The empty world. -/
def world0 : World := { trace := [], clock := 0 }

/-- A dispatch expression: it leaves the trace alone and yields a value. -/
def dispatch (v : Int) : Expr := fun w => (v, w)

/-! ## Definitions used to state the properties -/

/-- The progress count as the specification words it:
`checked = min(i + chunk_size, tot_num_blocks)` with `chunk_size = 128`
and `i + chunk_size` the arithmetic sum. -/
def checked_spec (i tot_num_blocks : Nat) : Nat :=
  min (i + 128) tot_num_blocks

/-- The tag the logging macros put in front of the caller's text when
`time_string()` is called at clock value `clock`. -/
def log_tag (S : Session) (clock : Nat) : String :=
  if S.monitor_temp ≠ 0 then
    "[" ++ S.time_string clock ++ "][" ++ S.hostname ++ "][" ++ fmt_d (asInt32 S.gpu_idx)
      ++ "][" ++ fmt_d (S.gpu_temp clock S.gpu_idx) ++ " C]:"
  else
    "[" ++ S.time_string clock ++ "][" ++ S.hostname ++ "][" ++ fmt_d (asInt32 S.gpu_idx)
      ++ "]:"

/-- The message of the fatal path:
`ERROR: CUDA error: <error text>, line <line>, file <file>` and a newline. -/
def cuerr_text (B : Backend) (file : String) (line : Nat) (r : Int) : String :=
  "ERROR: CUDA error: " ++ B.GetErrorString r ++ ", line " ++ Nat.repr line ++ ", file "
    ++ file ++ "\n"

/-- The texts written to standard output, in order. -/
def stdout_text : List Event → List String
  | [] => []
  | Event.out s :: es => s :: stdout_text es
  | _ :: es => stdout_text es

/-- Run a sequence of `DEBUG_PRINTF` calls, each with its own format and
arguments. -/
def debug_calls (S : Session) (calls : List (String × List Arg)) (w : World) : World :=
  calls.foldl (fun acc c => DEBUG_PRINTF S c.1 c.2 acc) w

end Memtest

namespace Memtest

/-! ## Formatting lemmas -/

theorem cformat_lit (c : Char) (l : List Char) (args : List Arg) (h : c ≠ '%') :
    cformat (c :: l) args = c :: cformat l args := by
  cases l with
  | nil => simp [cformat]
  | cons d rest => simp [cformat, h]

theorem cformat_s (l : List Char) (a : Arg) (args : List Arg) :
    cformat ('%' :: 's' :: l) (a :: args) = a.asS.data ++ cformat l args := by
  simp [cformat]

theorem cformat_d (l : List Char) (a : Arg) (args : List Arg) :
    cformat ('%' :: 'd' :: l) (a :: args) = a.asD.data ++ cformat l args := by
  simp [cformat]

theorem cformat_nil (args : List Arg) : cformat [] args = [] := by
  simp [cformat]

theorem fmt_d_natCast (n : Nat) : fmt_d (n : Int) = Nat.repr n := by
  simp [fmt_d]

theorem fmt_d_asInt32_small (n : Nat) (h : n < 2 ^ 31) : fmt_d (asInt32 n) = Nat.repr n := by
  have h1 : n % UINT_SIZE = n := Nat.mod_eq_of_lt (by unfold UINT_SIZE; omega)
  have h2 : n < 2147483648 := by omega
  simp [asInt32, h1, h2, fmt_d_natCast]

theorem fmt_d_asInt32_large (n : Nat) (hn : n < UINT_SIZE) (h : 2 ^ 31 ≤ n) :
    fmt_d (asInt32 n) = "-" ++ Nat.repr (UINT_SIZE - n) := by
  have h1 : n % UINT_SIZE = n := Nat.mod_eq_of_lt hn
  have h2 : ¬ n < 2147483648 := by omega
  have h3 : ((n : Int) - (UINT_SIZE : Int)) < 0 := by omega
  have h4 : ((n : Int) - (UINT_SIZE : Int)).natAbs = UINT_SIZE - n := by omega
  simp only [asInt32, h1]
  rw [if_neg (by simpa using h2)]
  simp only [fmt_d, h3, h4, if_true]

theorem sprintf_prefix_plain (fmt t h : String) (g : Nat) (args : List Arg) :
    sprintf ("[%s][%s][%d]:" ++ fmt) (Arg.str t :: Arg.str h :: Arg.uint g :: args)
      = "[" ++ t ++ "][" ++ h ++ "][" ++ fmt_d (asInt32 g) ++ "]:" ++ sprintf fmt args := by
  apply String.ext
  simp [sprintf, String.data_append, cformat_lit, cformat_s, cformat_d, Arg.asS, Arg.asD]

theorem sprintf_prefix_temp (fmt t h : String) (g : Nat) (temp : Int) (args : List Arg) :
    sprintf ("[%s][%s][%d][%d C]:" ++ fmt)
        (Arg.str t :: Arg.str h :: Arg.uint g :: Arg.int temp :: args)
      = "[" ++ t ++ "][" ++ h ++ "][" ++ fmt_d (asInt32 g) ++ "][" ++ fmt_d temp ++ " C]:"
          ++ sprintf fmt args := by
  apply String.ext
  simp [sprintf, String.data_append, cformat_lit, cformat_s, cformat_d, Arg.asS, Arg.asD]

theorem sprintf_cuerr (B : Backend) (file : String) (line : Nat) (r : Int) :
    sprintf cuerr_fmt (cuerr_args B file line r) = cuerr_text B file line r := by
  apply String.ext
  simp [sprintf, cuerr_fmt, cuerr_args, cuerr_text, String.data_append, cformat_lit,
    cformat_s, cformat_d, cformat_nil, Arg.asS, Arg.asD, fmt_d_natCast]

theorem sprintf_progress_interactive (h msg : String) (g n t : Nat) :
    sprintf progress_fmt_interactive
        [Arg.str h, Arg.uint g, Arg.str msg, Arg.uint n, Arg.uint t]
      = "\r" ++ h ++ "[" ++ fmt_d (asInt32 g) ++ "]:" ++ msg ++ ": " ++ fmt_d (asInt32 n)
          ++ " out of " ++ fmt_d (asInt32 t) ++ " blocks finished" := by
  apply String.ext
  simp [sprintf, progress_fmt_interactive, String.data_append, cformat_lit, cformat_s,
    cformat_d, cformat_nil, Arg.asS, Arg.asD]

theorem sprintf_progress_log (msg : String) (n t : Nat) :
    sprintf progress_fmt_log [Arg.str msg, Arg.uint n, Arg.uint t]
      = msg ++ ": " ++ fmt_d (asInt32 n) ++ " out of " ++ fmt_d (asInt32 t)
          ++ " blocks finished\n" := by
  apply String.ext
  simp [sprintf, progress_fmt_log, String.data_append, cformat_lit, cformat_s,
    cformat_d, cformat_nil, Arg.asS, Arg.asD]

/-! ## What one logging call does to the world -/

theorem PRINTF_eq (S : Session) (fmt : String) (args : List Arg) (w : World) :
    PRINTF S fmt args w =
      { trace := w.trace ++ [Event.lock, Event.out (log_tag S w.clock ++ sprintf fmt args),
          Event.unlock, Event.flushOut],
        clock := w.clock + 1 } := by
  unfold PRINTF log_tag
  by_cases h : S.monitor_temp = 0
  · simp [h, World.emit, call_time_string, sprintf_prefix_plain]
  · simp [h, World.emit, call_time_string, sprintf_prefix_temp]

theorem FPRINTF_eq (S : Session) (fmt : String) (args : List Arg) (w : World) :
    FPRINTF S fmt args w =
      { trace := w.trace ++ [Event.err (log_tag S w.clock ++ sprintf fmt args),
          Event.flushErr],
        clock := w.clock + 1 } := by
  unfold FPRINTF log_tag
  by_cases h : S.monitor_temp = 0
  · simp [h, World.emit, call_time_string, sprintf_prefix_plain]
  · simp [h, World.emit, call_time_string, sprintf_prefix_temp]

theorem fatal_eq (B : Backend) (S : Session) (file : String) (line : Nat) (r : Int)
    (w : World) :
    PRINTF S cuerr_fmt (cuerr_args B file line r)
        (FPRINTF S cuerr_fmt (cuerr_args B file line r) w) =
      { trace := w.trace ++ [Event.err (log_tag S w.clock ++ cuerr_text B file line r),
          Event.flushErr, Event.lock,
          Event.out (log_tag S (w.clock + 1) ++ cuerr_text B file line r),
          Event.unlock, Event.flushOut],
        clock := w.clock + 2 } := by
  rw [PRINTF_eq, FPRINTF_eq, sprintf_cuerr]
  simp

/-! ## Progress arithmetic -/

/-- C1: for every block index `i` and every total, the count computed by
`SHOW_PROGRESS` (with the sum taken in 32-bit unsigned arithmetic) never
exceeds `tot_num_blocks`. -/
theorem num_checked_blocks_le_total (i tot_num_blocks : Nat) :
    num_checked_blocks i tot_num_blocks ≤ tot_num_blocks := by
  unfold num_checked_blocks
  split
  · assumption
  · exact Nat.le_refl _

/-- C2 as stated fails: with `tot_num_blocks = 2^32 - 1`, the index `0`
yields 128 while the larger index `2^32 - 128` yields 0, because
`i + GRIDSIZE` wraps around. All three values are `unsigned int` values. -/
theorem num_checked_blocks_not_monotone :
    (0 : Nat) ≤ 4294967168 ∧ 4294967168 < UINT_SIZE ∧ 4294967295 < UINT_SIZE ∧
    num_checked_blocks 0 4294967295 = 128 ∧
    num_checked_blocks 4294967168 4294967295 = 0 ∧
    ¬ (num_checked_blocks 0 4294967295 ≤ num_checked_blocks 4294967168 4294967295) := by
  decide

/-- C2 amended: for the same total and block indices `i1 ≤ i2` such that
`i2 + GRIDSIZE` does not overflow `unsigned int`, the count computed for
`i1` is at most the count computed for `i2`. -/
theorem num_checked_blocks_mono (i1 i2 tot_num_blocks : Nat) (h : i1 ≤ i2)
    (hno : i2 + GRIDSIZE < UINT_SIZE) :
    num_checked_blocks i1 tot_num_blocks ≤ num_checked_blocks i2 tot_num_blocks := by
  have h1 : (i1 + GRIDSIZE) % UINT_SIZE = i1 + GRIDSIZE := Nat.mod_eq_of_lt (by omega)
  have h2 : (i2 + GRIDSIZE) % UINT_SIZE = i2 + GRIDSIZE := Nat.mod_eq_of_lt hno
  unfold num_checked_blocks
  rw [h1, h2]
  split <;> split <;> omega

/-- Instance of `num_checked_blocks_mono` at indices 0 and 128, total 300. -/
theorem num_checked_blocks_mono_witness :
    (0 : Nat) ≤ 128 ∧ 128 + GRIDSIZE < UINT_SIZE ∧
    num_checked_blocks 0 300 ≤ num_checked_blocks 128 300 :=
  ⟨by decide, by decide, num_checked_blocks_mono 0 128 300 (by decide) (by decide)⟩

/-- C3 as stated fails: for the `unsigned int` index `2^32 - 128` and total
1000 the code yields 0, while `min(i + 128, tot_num_blocks)` with the
arithmetic sum is 1000. -/
theorem num_checked_blocks_ne_spec :
    4294967168 < UINT_SIZE ∧ 1000 < UINT_SIZE ∧
    num_checked_blocks 4294967168 1000 = 0 ∧ checked_spec 4294967168 1000 = 1000 ∧
    num_checked_blocks 4294967168 1000 ≠ checked_spec 4294967168 1000 := by
  decide

/-- C3 amended: whenever `i + GRIDSIZE` does not overflow `unsigned int`,
the count computed by `SHOW_PROGRESS` equals `min(i + 128, tot_num_blocks)`
with the arithmetic sum; and for the total 300 the indices 0, 128, 256
yield 128, 256, 300 in that order. -/
theorem num_checked_blocks_eq_spec (i tot_num_blocks : Nat)
    (hno : i + GRIDSIZE < UINT_SIZE) :
    num_checked_blocks i tot_num_blocks = checked_spec i tot_num_blocks ∧
    GRIDSIZE = 128 ∧
    [0, 128, 256].map (fun j => num_checked_blocks j 300) = [128, 256, 300] := by
  refine ⟨?_, rfl, by decide⟩
  have h1 : (i + GRIDSIZE) % UINT_SIZE = i + GRIDSIZE := Nat.mod_eq_of_lt hno
  unfold num_checked_blocks checked_spec
  rw [h1]
  unfold GRIDSIZE
  split
  · rw [Nat.min_eq_left (by assumption)]
  · rw [Nat.min_eq_right (by omega)]

/-- Instance of `num_checked_blocks_eq_spec` at index 256, total 300. -/
theorem num_checked_blocks_eq_spec_witness :
    256 + GRIDSIZE < UINT_SIZE ∧
    (num_checked_blocks 256 300 = checked_spec 256 300 ∧
     GRIDSIZE = 128 ∧
     [0, 128, 256].map (fun j => num_checked_blocks j 300) = [128, 256, 300]) :=
  ⟨by decide, num_checked_blocks_eq_spec 256 300 (by decide)⟩

/-! ## The checked call -/

/-- C4: for the result code `r` of the expression given to `CUERR`, the
process is terminated exactly when `r` is not the success value; when it is
terminated the status passed to `exit` is `r`; and when `r` is the success
value control continues in the world the expression left, with nothing
written by `CUERR`. -/
theorem CUERR_terminates_iff (B : Backend) (S : Session) (file : String) (line : Nat)
    (e : Expr) (w : World) :
    ((CUERR B S file line e w).terminated = true ↔ (e w).1 ≠ B.Success) ∧
    ((CUERR B S file line e w).terminated = true →
      (CUERR B S file line e w).status = some (e w).1) ∧
    ((e w).1 = B.Success → CUERR B S file line e w = Outcome.continues (e w).2) := by
  by_cases h : (e w).1 = B.Success
  · simp [CUERR, h, Outcome.terminated, Outcome.status]
  · simp [CUERR, h, Outcome.terminated, Outcome.status]

/-- Instance of `CUERR_terminates_iff` at a synchronisation that fails with
code 700. -/
theorem CUERR_terminates_iff_witness :
    (CUERR failBackend plainSession "tests.cu" 42 (deviceSynchronize failBackend)
        world0).terminated = true ∧
    (CUERR failBackend plainSession "tests.cu" 42 (deviceSynchronize failBackend)
        world0).status = some 700 :=
  ⟨(CUERR_terminates_iff failBackend plainSession "tests.cu" 42
      (deviceSynchronize failBackend) world0).1.2 (by decide),
   (CUERR_terminates_iff failBackend plainSession "tests.cu" 42
      (deviceSynchronize failBackend) world0).2.1 (by decide)⟩

/-- C5: on the fatal path of `CUERR` (the result `r` is not success) the
events added after the expression are, in this order: one write to the
error stream followed by its flush (`FPRINTF`), then lock, one write to
standard output, unlock and flush (`PRINTF`); the message after the tag is
`ERROR: CUDA error: <error text of r>, line <line>, file <file>` plus a
newline in both writes; and the process then exits with `r`. -/
theorem CUERR_fatal_writes (B : Backend) (S : Session) (file : String) (line : Nat)
    (e : Expr) (w : World) (h : (e w).1 ≠ B.Success) :
    CUERR B S file line e w =
      Outcome.exited
        { trace := (e w).2.trace ++
            [Event.err (log_tag S (e w).2.clock ++
               ("ERROR: CUDA error: " ++ B.GetErrorString (e w).1 ++ ", line "
                 ++ Nat.repr line ++ ", file " ++ file ++ "\n")),
             Event.flushErr,
             Event.lock,
             Event.out (log_tag S ((e w).2.clock + 1) ++
               ("ERROR: CUDA error: " ++ B.GetErrorString (e w).1 ++ ", line "
                 ++ Nat.repr line ++ ", file " ++ file ++ "\n")),
             Event.unlock,
             Event.flushOut],
          clock := (e w).2.clock + 2 }
        (e w).1 := by
  have hf := fatal_eq B S file line (e w).1 (e w).2
  unfold cuerr_text at hf
  simp [CUERR, h, hf]

/-- Instance of `CUERR_fatal_writes` at a synchronisation that fails with
code 700, expanded at `tests.cu`:42, with temperature monitoring on. -/
theorem CUERR_fatal_writes_witness :
    (deviceSynchronize failBackend world0).1 ≠ failBackend.Success ∧
    CUERR failBackend tempSession "tests.cu" 42 (deviceSynchronize failBackend) world0 =
      Outcome.exited
        { trace :=
            [Event.sync,
             Event.err "[T0][node1][1][41 C]:ERROR: CUDA error: error 700, line 42, file tests.cu\n",
             Event.flushErr,
             Event.lock,
             Event.out "[T1][node1][1][41 C]:ERROR: CUDA error: error 700, line 42, file tests.cu\n",
             Event.unlock,
             Event.flushOut],
          clock := 2 }
        700 :=
  ⟨by decide,
   (CUERR_fatal_writes failBackend tempSession "tests.cu" 42 (deviceSynchronize failBackend)
      world0 (by decide)).trans (by decide)⟩

/-! ## The checked dispatch-and-sync -/

/-- C6: `SYNC_CUERR_KERNEL(k)` performs the dispatch `k`, then one device
synchronisation, then inspects the synchronisation result `s` alone: the
outcome is the same for any dispatch with the same effect whatever value
it yields; control returns exactly when `s` is the success value, with
the synchronisation as the only added event; and when `s` is not success
the added events are the synchronisation, one error-stream write with its
flush, then lock, one standard-output write, unlock, flush, and the
process exits with status `s`. -/
theorem SYNC_CUERR_KERNEL_order (B : Backend) (S : Session) (file : String) (line : Nat)
    (k : Expr) (w : World) :
    (∀ k2 : Expr, (k2 w).2 = (k w).2 →
      SYNC_CUERR_KERNEL B S file line k2 w = SYNC_CUERR_KERNEL B S file line k w) ∧
    ((SYNC_CUERR_KERNEL B S file line k w).terminated = false ↔
      B.DeviceSynchronize (k w).2 = B.Success) ∧
    (B.DeviceSynchronize (k w).2 = B.Success →
      SYNC_CUERR_KERNEL B S file line k w =
        Outcome.continues
          { trace := (k w).2.trace ++ [Event.sync], clock := (k w).2.clock }) ∧
    (B.DeviceSynchronize (k w).2 ≠ B.Success →
      SYNC_CUERR_KERNEL B S file line k w =
        Outcome.exited
          { trace := (k w).2.trace ++
              [Event.sync,
               Event.err (log_tag S (k w).2.clock ++
                 cuerr_text B file line (B.DeviceSynchronize (k w).2)),
               Event.flushErr,
               Event.lock,
               Event.out (log_tag S ((k w).2.clock + 1) ++
                 cuerr_text B file line (B.DeviceSynchronize (k w).2)),
               Event.unlock,
               Event.flushOut],
            clock := (k w).2.clock + 2 }
          (B.DeviceSynchronize (k w).2)) := by
  refine ⟨?_, ?_, ?_, ?_⟩
  · intro k2 hk
    simp [SYNC_CUERR_KERNEL, hk]
  · by_cases h : B.DeviceSynchronize (k w).2 = B.Success
    · simp [SYNC_CUERR_KERNEL, deviceSynchronize, h, Outcome.terminated]
    · simp [SYNC_CUERR_KERNEL, deviceSynchronize, h, Outcome.terminated]
  · intro h
    simp [SYNC_CUERR_KERNEL, deviceSynchronize, h, World.emit]
  · intro h
    have hf := fatal_eq B S file line (B.DeviceSynchronize (k w).2)
      { trace := (k w).2.trace ++ [Event.sync], clock := (k w).2.clock }
    simp [SYNC_CUERR_KERNEL, deviceSynchronize, h, hf, World.emit]

/-- Instance of `SYNC_CUERR_KERNEL_order` at a dispatch yielding 5 whose
following synchronisation fails with code 700. -/
theorem SYNC_CUERR_KERNEL_order_witness :
    failBackend.DeviceSynchronize (dispatch 5 world0).2 ≠ failBackend.Success ∧
    SYNC_CUERR_KERNEL failBackend plainSession "tests.cu" 42 (dispatch 5) world0 =
      Outcome.exited
        { trace :=
            [Event.sync,
             Event.err "[T0][node1][0]:ERROR: CUDA error: error 700, line 42, file tests.cu\n",
             Event.flushErr,
             Event.lock,
             Event.out "[T1][node1][0]:ERROR: CUDA error: error 700, line 42, file tests.cu\n",
             Event.unlock,
             Event.flushOut],
          clock := 2 }
        700 :=
  ⟨by decide,
   ((SYNC_CUERR_KERNEL_order failBackend plainSession "tests.cu" 42 (dispatch 5)
      world0).2.2.2 (by decide)).trans (by decide)⟩

/-! ## The logging macros -/

/-- C7: when `verbose` is 0, `DEBUG_PRINTF` leaves the world unchanged (no
write, no lock), and so does any sequence of `DEBUG_PRINTF` calls; when
`verbose` is non-zero, `DEBUG_PRINTF` has exactly the effect of `PRINTF`
with the same format and arguments. -/
theorem DEBUG_PRINTF_gate (S : Session) (fmt : String) (args : List Arg) (w : World) :
    (S.verbose = 0 →
      DEBUG_PRINTF S fmt args w = w ∧
      ∀ calls : List (String × List Arg), debug_calls S calls w = w) ∧
    (S.verbose ≠ 0 → DEBUG_PRINTF S fmt args w = PRINTF S fmt args w) := by
  refine ⟨?_, ?_⟩
  · intro h
    refine ⟨by simp [DEBUG_PRINTF, h], ?_⟩
    intro calls
    unfold debug_calls
    induction calls with
    | nil => rfl
    | cons c cs ih => simp [List.foldl, DEBUG_PRINTF, h]
  · intro h
    simp [DEBUG_PRINTF, h]

/-- Instance of `DEBUG_PRINTF_gate` at a quiet session (three calls, no
event) and at a verbose one. -/
theorem DEBUG_PRINTF_gate_witness :
    plainSession.verbose = 0 ∧ tempSession.verbose ≠ 0 ∧
    (debug_calls plainSession [("a\n", []), ("b %d\n", [Arg.int 1]), ("c\n", [])]
      world0).trace = [] ∧
    (DEBUG_PRINTF tempSession "x\n" [] world0).trace =
      [Event.lock, Event.out "[T0][node1][1][41 C]:x\n", Event.unlock, Event.flushOut] :=
  ⟨by decide, by decide,
   by rw [((DEBUG_PRINTF_gate plainSession "a\n" [] world0).1 (by decide)).2]; rfl,
   by rw [(DEBUG_PRINTF_gate tempSession "x\n" [] world0).2 (by decide)]; decide⟩

/-- C8 as stated fails: without temperature monitoring the text written
for the message `x` is the tag with a trailing colon followed by `x`, not
`[<timestamp>][<host>][<device-index>]` followed directly by `x`. -/
theorem PRINTF_plain_prefix_has_colon :
    plainSession.monitor_temp = 0 ∧
    stdout_text (PRINTF plainSession "x" [] world0).trace = ["[T0][node1][0]:x"] ∧
    stdout_text (PRINTF plainSession "x" [] world0).trace ≠
      ["[" ++ plainSession.time_string world0.clock ++ "][" ++ plainSession.hostname
        ++ "][" ++ fmt_d (asInt32 plainSession.gpu_idx) ++ "]" ++ sprintf "x" []] := by
  decide

/-- C8 amended: whatever `verbose` is, `PRINTF` writes exactly one record to
standard output, the tag followed by the caller's formatted message; the
tag is `[<timestamp>][<host>][<device-index>][<temp> C]:` with
`<temp> = gpu_temp[gpu_idx]` when temperature monitoring is enabled and
`[<timestamp>][<host>][<device-index>]:` (with the colon) when it is
not, the numbers being printed by `%d`. -/
theorem PRINTF_record (S : Session) (fmt : String) (args : List Arg) (w : World) :
    (S.monitor_temp ≠ 0 →
      PRINTF S fmt args w =
        { trace := w.trace ++
            [Event.lock,
             Event.out ("[" ++ S.time_string w.clock ++ "][" ++ S.hostname ++ "]["
               ++ fmt_d (asInt32 S.gpu_idx) ++ "][" ++ fmt_d (S.gpu_temp w.clock S.gpu_idx)
               ++ " C]:" ++ sprintf fmt args),
             Event.unlock, Event.flushOut],
          clock := w.clock + 1 }) ∧
    (S.monitor_temp = 0 →
      PRINTF S fmt args w =
        { trace := w.trace ++
            [Event.lock,
             Event.out ("[" ++ S.time_string w.clock ++ "][" ++ S.hostname ++ "]["
               ++ fmt_d (asInt32 S.gpu_idx) ++ "]:" ++ sprintf fmt args),
             Event.unlock, Event.flushOut],
          clock := w.clock + 1 }) := by
  refine ⟨?_, ?_⟩
  · intro h
    rw [PRINTF_eq]
    simp [log_tag, h]
  · intro h
    rw [PRINTF_eq]
    simp [log_tag, h]

/-- Instance of `PRINTF_record` with temperature monitoring on, device 1,
temperature 41. -/
theorem PRINTF_record_witness :
    tempSession.monitor_temp ≠ 0 ∧
    PRINTF tempSession "hello %d\n" [Arg.int 3] world0 =
      { trace := [Event.lock, Event.out "[T0][node1][1][41 C]:hello 3\n", Event.unlock,
          Event.flushOut],
        clock := 1 } :=
  ⟨by decide,
   ((PRINTF_record tempSession "hello %d\n" [Arg.int 3] world0).1 (by decide)).trans
     (by decide)⟩

/-- C9 as stated fails: `PRINTF` releases the lock before it flushes
standard output; the trace of a call is lock, write, unlock, flush, and
not lock, write, flush, unlock. -/
theorem PRINTF_flush_after_unlock :
    (PRINTF plainSession "x" [] world0).trace =
      [Event.lock, Event.out "[T0][node1][0]:x", Event.unlock, Event.flushOut] ∧
    (PRINTF tempSession "x" [] world0).trace =
      [Event.lock, Event.out "[T0][node1][1][41 C]:x", Event.unlock, Event.flushOut] ∧
    ¬ (∃ s, (PRINTF plainSession "x" [] world0).trace =
      [Event.lock, Event.out s, Event.flushOut, Event.unlock]) := by
  refine ⟨by decide, by decide, ?_⟩
  rintro ⟨s, hs⟩
  rw [PRINTF_eq] at hs
  simp [world0] at hs

/-- C9 amended: in both branches of `PRINTF` the events of one call are, in
this order, acquire the lock, write the tagged formatted message, release
the lock, flush standard output; the write happens while the lock is held,
the flush after its release, and the lock is acquired once and released
once. -/
theorem PRINTF_sequence (S : Session) (fmt : String) (args : List Arg) (w : World) :
    (PRINTF S fmt args w).trace =
      w.trace ++ [Event.lock, Event.out (log_tag S w.clock ++ sprintf fmt args),
        Event.unlock, Event.flushOut] := by
  rw [PRINTF_eq]

/-! ## The progress reporter -/

/-- C10 as stated fails: for the `unsigned int` total `2^32 - 1` and block
index 0, in an interactive session at verbosity 2, the text written is
`128 out of -1 blocks finished`, because `%d` reads the total back as an
`int`; it is not the text with the total `4294967295` in it. -/
theorem SHOW_PROGRESS_total_printed_negative :
    4294967295 < UINT_SIZE ∧
    okBackend.DeviceSynchronize world0 = okBackend.Success ∧
    2 ≤ tempSession.verbose ∧ tempSession.interactive ≠ 0 ∧
    SHOW_PROGRESS okBackend tempSession "tests.cu" 42 "test0" 0 4294967295 world0 =
      Outcome.continues
        { trace := [Event.sync, Event.out "\rnode1[1]:test0: 128 out of -1 blocks finished",
            Event.flushOut],
          clock := 0 } ∧
    SHOW_PROGRESS okBackend tempSession "tests.cu" 42 "test0" 0 4294967295 world0 ≠
      Outcome.continues
        { trace := [Event.sync,
            Event.out ("\r" ++ tempSession.hostname ++ "[" ++ Nat.repr tempSession.gpu_idx
              ++ "]:" ++ "test0" ++ ": " ++ Nat.repr (num_checked_blocks 0 4294967295)
              ++ " out of " ++ Nat.repr 4294967295 ++ " blocks finished"),
            Event.flushOut],
          clock := 0 } := by
  decide

/-- C10 amended: when the initial synchronisation of `SHOW_PROGRESS`
succeeds, the events after it are: with `verbose >= 2` and `interactive`
non-zero, one unlocked write of carriage return, host,
`[<device-index>]:`, label,
`: <checked> out of <tot_num_blocks> blocks finished` (no tag, no
newline) and a flush; with `verbose >= 2` and `interactive` zero, the
events of one `PRINTF` whose message is the label followed by
`: <checked> out of <tot_num_blocks> blocks finished` and a newline, and a
flush; with `verbose < 2`, the flush alone. The device index and the two
counts are written as `%d` prints an `unsigned int`: the decimal number
when the value is below `2^31`, and otherwise the negative number
obtained by subtracting `2^32`. -/
theorem SHOW_PROGRESS_output (B : Backend) (S : Session) (file : String) (line : Nat)
    (msg : String) (i tot_num_blocks : Nat) (w : World)
    (hs : B.DeviceSynchronize w = B.Success) :
    (2 ≤ S.verbose → S.interactive ≠ 0 →
      SHOW_PROGRESS B S file line msg i tot_num_blocks w =
        Outcome.continues
          { trace := w.trace ++
              [Event.sync,
               Event.out ("\r" ++ S.hostname ++ "[" ++ fmt_d (asInt32 S.gpu_idx) ++ "]:"
                 ++ msg ++ ": " ++ fmt_d (asInt32 (num_checked_blocks i tot_num_blocks))
                 ++ " out of " ++ fmt_d (asInt32 tot_num_blocks) ++ " blocks finished"),
               Event.flushOut],
            clock := w.clock }) ∧
    (2 ≤ S.verbose → S.interactive = 0 →
      SHOW_PROGRESS B S file line msg i tot_num_blocks w =
        Outcome.continues
          ((PRINTF S "%s: %d out of %d blocks finished\n"
              [Arg.str msg, Arg.uint (num_checked_blocks i tot_num_blocks),
               Arg.uint tot_num_blocks]
              (w.emit Event.sync)).emit Event.flushOut) ∧
      SHOW_PROGRESS B S file line msg i tot_num_blocks w =
        Outcome.continues
          { trace := w.trace ++
              [Event.sync,
               Event.lock,
               Event.out (log_tag S w.clock ++
                 (msg ++ ": " ++ fmt_d (asInt32 (num_checked_blocks i tot_num_blocks))
                   ++ " out of " ++ fmt_d (asInt32 tot_num_blocks)
                   ++ " blocks finished\n")),
               Event.unlock,
               Event.flushOut,
               Event.flushOut],
            clock := w.clock + 1 }) ∧
    (S.verbose < 2 →
      SHOW_PROGRESS B S file line msg i tot_num_blocks w =
        Outcome.continues
          { trace := w.trace ++ [Event.sync, Event.flushOut], clock := w.clock }) ∧
    (∀ n : Nat, n < UINT_SIZE →
      (n < 2 ^ 31 → fmt_d (asInt32 n) = Nat.repr n) ∧
      (2 ^ 31 ≤ n → fmt_d (asInt32 n) = "-" ++ Nat.repr (UINT_SIZE - n))) := by
  have hc : CUERR B S file line (deviceSynchronize B) w
      = Outcome.continues { trace := w.trace ++ [Event.sync], clock := w.clock } := by
    simp [CUERR, deviceSynchronize, hs, World.emit]
  refine ⟨?_, ?_, ?_, ?_⟩
  · intro hv hi
    simp [SHOW_PROGRESS, hc, hv, hi, World.emit, sprintf_progress_interactive]
  · intro hv hi
    refine ⟨?_, ?_⟩
    · simp [SHOW_PROGRESS, hc, hv, hi, World.emit, progress_fmt_log]
    · simp [SHOW_PROGRESS, hc, hv, hi, World.emit, PRINTF_eq, sprintf_progress_log]
  · intro hv
    have hv2 : ¬ 2 ≤ S.verbose := by omega
    simp [SHOW_PROGRESS, hc, hv2, World.emit]
  · intro n hn
    exact ⟨fmt_d_asInt32_small n, fmt_d_asInt32_large n hn⟩

/-- Instance of `SHOW_PROGRESS_output` in an interactive session at
verbosity 2, for block index 256 of 300. -/
theorem SHOW_PROGRESS_output_witness :
    okBackend.DeviceSynchronize world0 = okBackend.Success ∧
    2 ≤ tempSession.verbose ∧ tempSession.interactive ≠ 0 ∧
    SHOW_PROGRESS okBackend tempSession "tests.cu" 42 "test0" 256 300 world0 =
      Outcome.continues
        { trace := [Event.sync, Event.out "\rnode1[1]:test0: 300 out of 300 blocks finished",
            Event.flushOut],
          clock := 0 } :=
  ⟨by decide, by decide, by decide,
   ((SHOW_PROGRESS_output okBackend tempSession "tests.cu" 42 "test0" 256 300 world0
      (by decide)).1 (by decide) (by decide)).trans (by decide)⟩

end Memtest
